import Mathlib

/-
  Shallow embedding of the Mista SMS channel handler.

  The repository holds three revisions of the same Go handler:
    src/mista.go            (namespace MistaGo below)
    src/unnamed/part_000    (namespace Part000 below)
    src/unnamed/part_001    (namespace Part001 below)
  statusMapping and receiveStatus are textually identical in all three
  revisions, so they are embedded once at the top level.  The inbound
  message handler of part_001 is textually identical to the one of
  part_000, so it is embedded once under Part000.
-/

namespace Mista

/-- Decidable equality of Except values, so that concrete handler runs
    can be checked by evaluation. -/
instance {ε α : Type} [DecidableEq ε] [DecidableEq α] : DecidableEq (Except ε α) := fun x y =>
  match x, y with
  | .ok a, .ok b =>
    if h : a = b then isTrue (congrArg Except.ok h)
    else isFalse (fun hc => h (Except.ok.inj hc))
  | .error a, .error b =>
    if h : a = b then isTrue (congrArg Except.error h)
    else isFalse (fun hc => h (Except.error.inj hc))
  | .ok _, .error _ => isFalse (fun hc => Except.noConfusion hc)
  | .error _, .ok _ => isFalse (fun hc => Except.noConfusion hc)

/-- Canonical delivery status values (courier.MsgStatusValue). -/
inductive MsgStatusValue where
  | pending
  | queued
  | wired
  | sent
  | delivered
  | errored
  | failed
  deriving DecidableEq, Repr

/-- Errors surfaced by the handler.  Each constructor mirrors one error
    value the Go code can produce; string payloads carry the offending
    value exactly where the Go error message embeds it. -/
inductive Err where
  /-- handlers.DecodeAndValidateForm rejected a required form field;
      the payload is the form name of the field. -/
  | validationFailed (field : String)
  /-- fmt.Errorf with the text invalid date format, carrying the
      original date string. -/
  | invalidDateFormat (original : String)
  /-- handlers.StrictTelForCountry rejected the phone number. -/
  | urnError (msg : String)
  /-- fmt.Errorf with the text unknown status, carrying the offending
      provider status value. -/
  | unknownStatus (s : String)
  /-- fmt.Errorf: no API key set for Mista channel. -/
  | noAPIKey
  /-- fmt.Errorf: SMS request failed with status code, carrying the
      HTTP status code. -/
  | sendFailed (code : Nat)
  /-- client.Do returned a transport-level error. -/
  | transportError (e : String)
  /-- ioutil.ReadAll failed on the response body. -/
  | readFailed (e : String)
  /-- json.Unmarshal failed on the response body. -/
  | unmarshalFailed
  deriving DecidableEq, Repr

/- ----------------------------------------------------------------
   Timestamp parsing: embedding of the Go time.Parse calls made by the
   handlers, for the three layouts that appear in the source:
     time.RFC3339              (mista.go, first attempt)
     2006-01-02T15:04:05Z      (mista.go second attempt; part_000 first)
     2006-01-02 15:04:05       (part_000 second attempt)
   A parsed timestamp is represented as the UTC instant in seconds
   relative to the Unix epoch (an Int).
   ---------------------------------------------------------------- -/

/-- Date-time components as read from an input string. -/
structure DateTime where
  year : Nat
  month : Nat
  day : Nat
  hour : Nat
  minute : Nat
  second : Nat
  deriving DecidableEq, Repr

/-- Decimal value of a digit character. -/
def digitVal (c : Char) : Option Nat :=
  if c.isDigit then some (c.toNat - 48) else none

/-- Read exactly two decimal digits (a fixed-width Go layout number). -/
def read2 : List Char → Option (Nat × List Char)
  | c1 :: c2 :: rest =>
    match digitVal c1, digitVal c2 with
    | some d1, some d2 => some (10 * d1 + d2, rest)
    | _, _ => none
  | _ => none

/-- Read exactly four decimal digits (the Go layout year 2006). -/
def read4 : List Char → Option (Nat × List Char)
  | c1 :: c2 :: c3 :: c4 :: rest =>
    match digitVal c1, digitVal c2, digitVal c3, digitVal c4 with
    | some d1, some d2, some d3, some d4 =>
      some (1000 * d1 + 100 * d2 + 10 * d3 + d4, rest)
    | _, _, _, _ => none
  | _ => none

/-- Consume one expected literal character of the layout. -/
def lit (c : Char) : List Char → Option (List Char)
  | x :: rest => if x = c then some rest else none
  | [] => none

/-- Go time.Parse accepts an optional fractional second after the
    seconds field even when the layout does not mention one: a period
    followed by at least one digit.  The fraction is consumed and
    discarded (it never changes the second-resolution instant). -/
def skipFrac : List Char → List Char
  | '.' :: c :: rest =>
    if c.isDigit then (c :: rest).dropWhile (fun x => x.isDigit) else '.' :: c :: rest
  | l => l

/-- Gregorian leap-year rule, as applied by the Go time package. -/
def isLeap (y : Nat) : Bool :=
  y % 4 = 0 && (y % 100 ≠ 0 || y % 400 = 0)

/-- Number of days in a month, as applied by the Go time package. -/
def daysInMonth (y m : Nat) : Nat :=
  if m = 2 then (if isLeap y then 29 else 28)
  else if m = 4 || m = 6 || m = 9 || m = 11 then 30
  else 31

/-- Component range checks performed by Go time.Parse: month, day,
    hour, minute and second out of range make the parse fail. -/
def validDT (dt : DateTime) : Bool :=
  1 ≤ dt.month && dt.month ≤ 12 &&
  1 ≤ dt.day && dt.day ≤ daysInMonth dt.year dt.month &&
  dt.hour ≤ 23 && dt.minute ≤ 59 && dt.second ≤ 59

/-- Days relative to 1970-01-01 of a Gregorian calendar date
    (the standard civil-from-days inverse computation). -/
def daysFromCivil (y : Int) (m d : Nat) : Int :=
  let y2 : Int := if m ≤ 2 then y - 1 else y
  let era : Int := (if 0 ≤ y2 then y2 else y2 - 399) / 400
  let yoe : Int := y2 - era * 400
  let mp : Nat := (m + 9) % 12
  let doy : Int := ((153 * mp + 2) / 5 + (d - 1) : Nat)
  let doe : Int := yoe * 365 + yoe / 4 - yoe / 100 + doy
  era * 146097 + doe - 719468

/-- UTC instant (seconds since the Unix epoch) of date-time components
    read with no zone offset. -/
def dtInstant (dt : DateTime) : Int :=
  daysFromCivil (dt.year : Int) dt.month dt.day * 86400 +
    ((dt.hour * 3600 + dt.minute * 60 + dt.second : Nat) : Int)

/-- Read the common layout core 2006-01-02 sep 15:04:05, where sep is
    the separator character of the layout (T or a space). -/
def readDateTime (sep : Char) (l : List Char) : Option (DateTime × List Char) :=
  match read4 l with
  | none => none
  | some (y, l1) =>
    match lit '-' l1 with
    | none => none
    | some l2 =>
      match read2 l2 with
      | none => none
      | some (mo, l3) =>
        match lit '-' l3 with
        | none => none
        | some l4 =>
          match read2 l4 with
          | none => none
          | some (d, l5) =>
            match lit sep l5 with
            | none => none
            | some l6 =>
              match read2 l6 with
              | none => none
              | some (h, l7) =>
                match lit ':' l7 with
                | none => none
                | some l8 =>
                  match read2 l8 with
                  | none => none
                  | some (mi, l9) =>
                    match lit ':' l9 with
                    | none => none
                    | some l10 =>
                      match read2 l10 with
                      | none => none
                      | some (s, l11) => some (⟨y, mo, d, h, mi, s⟩, l11)

/-- Go time.Parse with the layout 2006-01-02T15:04:05Z.  The trailing Z
    of the layout is a literal character (it is not followed by 07:00,
    so Go treats it as text, not as a zone element); the input must end
    right after it. -/
def parseLayoutZ (s : String) : Option Int :=
  match readDateTime 'T' s.data with
  | none => none
  | some (dt, rest) =>
    match lit 'Z' (skipFrac rest) with
    | none => none
    | some [] => if validDT dt then some (dtInstant dt) else none
    | some _ => none

/-- Go time.Parse with the layout 2006-01-02 15:04:05.  No zone marker:
    the result is already UTC, so the UTC conversion applied by the
    caller is the identity. -/
def parseLayoutSpace (s : String) : Option Int :=
  match readDateTime ' ' s.data with
  | none => none
  | some (dt, rest) =>
    match skipFrac rest with
    | [] => if validDT dt then some (dtInstant dt) else none
    | _ => none

/-- Zone suffix of the RFC3339 layout: either the literal Z, or a sign
    followed by a two-digit hour, a colon and a two-digit minute.  The
    result is the offset east of UTC in minutes. -/
def readZone : List Char → Option (Int × List Char)
  | 'Z' :: rest => some (0, rest)
  | '+' :: rest =>
    match read2 rest with
    | none => none
    | some (hh, r1) =>
      match lit ':' r1 with
      | none => none
      | some r2 =>
        match read2 r2 with
        | none => none
        | some (mm, r3) =>
          if hh ≤ 23 && mm ≤ 59 then some (((hh * 60 + mm : Nat) : Int), r3) else none
  | '-' :: rest =>
    match read2 rest with
    | none => none
    | some (hh, r1) =>
      match lit ':' r1 with
      | none => none
      | some r2 =>
        match read2 r2 with
        | none => none
        | some (mm, r3) =>
          if hh ≤ 23 && mm ≤ 59 then some (-((hh * 60 + mm : Nat) : Int), r3) else none
  | _ => none

/-- Go time.Parse with the layout time.RFC3339
    (2006-01-02T15:04:05Z07:00): layout core, optional fractional
    second, then a zone suffix; the result is normalized to UTC by
    subtracting the zone offset. -/
def parseRFC3339 (s : String) : Option Int :=
  match readDateTime 'T' s.data with
  | none => none
  | some (dt, rest) =>
    match readZone (skipFrac rest) with
    | none => none
    | some (off, []) => if validDT dt then some (dtInstant dt - off * 60) else none
    | some (_, _) => none

/- ----------------------------------------------------------------
   Rendering of the two provider timestamp shapes, used to state that
   the parsers accept every well-formed string of the shapes.
   ---------------------------------------------------------------- -/

/-- Character of one decimal digit. -/
def digitChar (n : Nat) : Char := Char.ofNat (48 + n)

/-- Two-digit zero-padded decimal rendering. -/
def pad2 (n : Nat) : List Char := [digitChar (n / 10), digitChar (n % 10)]

/-- Four-digit zero-padded decimal rendering. -/
def pad4 (n : Nat) : List Char :=
  [digitChar (n / 1000), digitChar (n / 100 % 10), digitChar (n / 10 % 10), digitChar (n % 10)]

/-- The layout core of a date-time with separator sep. -/
def renderCore (sep : Char) (dt : DateTime) : List Char :=
  pad4 dt.year ++ '-' :: (pad2 dt.month ++ '-' :: (pad2 dt.day ++
    sep :: (pad2 dt.hour ++ ':' :: (pad2 dt.minute ++ ':' :: pad2 dt.second))))

/-- A timestamp in the strict Z-suffixed shape 2006-01-02T15:04:05Z. -/
def renderZ (dt : DateTime) : String := ⟨renderCore 'T' dt ++ ['Z']⟩

/-- A timestamp in the space-separated shape 2006-01-02 15:04:05. -/
def renderSpace (dt : DateTime) : String := ⟨renderCore ' ' dt⟩

/- ----------------------------------------------------------------
   Status webhook (identical in all three revisions).
   ---------------------------------------------------------------- -/

/-- Decoded statusForm fields (form names id and status); both carry a
    well-formed required validation tag in every revision. -/
structure StatusForm where
  id : String
  status : String
  deriving DecidableEq, Repr

/-- Status record keyed by the provider external ID, as built by
    Backend().NewMsgStatusForExternalID. -/
structure ExternalStatusRecord where
  externalID : String
  status : MsgStatusValue
  deriving DecidableEq, Repr

/-- The statusMapping table of the source, a Go map from provider
    status string to courier.MsgStatusValue; Go map lookup is an exact
    case-sensitive match. -/
def statusMapping (s : String) : Option MsgStatusValue :=
  if s = "Success" then some .delivered
  else if s = "Sent" then some .sent
  else if s = "Buffered" then some .sent
  else if s = "Rejected" then some .failed
  else if s = "Failed" then some .failed
  else if s = "Expired" then some .failed
  else none

/-- receiveStatus: handlers.DecodeAndValidateForm enforces the required
    tag on both fields (an empty value is a validation error naming the
    field), then the status is resolved through statusMapping, an
    unknown value failing with the unknown-status error carrying the
    offending value. -/
def receiveStatus (f : StatusForm) : Except Err ExternalStatusRecord :=
  if f.id = "" then .error (.validationFailed "id")
  else if f.status = "" then .error (.validationFailed "status")
  else
    match statusMapping f.status with
    | none => .error (.unknownStatus f.status)
    | some v => .ok ⟨f.id, v⟩

/- ----------------------------------------------------------------
   Inbound message webhook.
   ---------------------------------------------------------------- -/

/-- Canonical inbound message, as built by
    Backend().NewIncomingMsg(channel, urn, text)
      .WithExternalID(id).WithReceivedOn(date).
    receivedOn is none when the Go time.Time zero value is kept
    (mista.go with an absent date field). -/
structure IncomingMsg where
  urn : String
  text : String
  externalID : String
  receivedOn : Option Int
  deriving DecidableEq, Repr

namespace MistaGo

/-- moForm of src/mista.go: field ID (form name id, no validation tag),
    Body (form name body, required), From (required), To (required),
    Date (form name date, no validation tag). -/
structure MoForm where
  id : String
  body : String
  fromAddr : String
  toAddr : String
  date : String
  deriving DecidableEq, Repr

/-- handlers.DecodeAndValidateForm on the mista.go moForm: only Body,
    From and To carry a required tag, so only those three fields are
    rejected when empty, in declaration order, the error naming the
    field. -/
def validateMoForm (f : MoForm) : Except Err Unit :=
  if f.body = "" then .error (.validationFailed "body")
  else if f.fromAddr = "" then .error (.validationFailed "from")
  else if f.toAddr = "" then .error (.validationFailed "to")
  else .ok ()

/-- Date handling of src/mista.go receiveMessage: an empty date string
    keeps the zero time.Time value (none); otherwise time.Parse with
    time.RFC3339 is attempted first, then the layout
    2006-01-02T15:04:05Z, and if both fail the handler fails with the
    invalid-date-format error carrying the original string. -/
def parseDate (s : String) : Except Err (Option Int) :=
  if s = "" then .ok none
  else
    match parseRFC3339 s with
    | some t => .ok (some t)
    | none =>
      match parseLayoutZ s with
      | some t => .ok (some t)
      | none => .error (.invalidDateFormat s)

/-- receiveMessage of src/mista.go.  handlers.StrictTelForCountry is
    external to the repository, so the phone-number validator is a
    parameter tel mapping the raw origin address and the channel
    country to either an error or a URN. -/
def receiveMessage (tel : String → String → Except Err String) (country : String)
    (f : MoForm) : Except Err IncomingMsg :=
  match validateMoForm f with
  | .error e => .error e
  | .ok _ =>
    match parseDate f.date with
    | .error e => .error e
    | .ok od =>
      match tel f.fromAddr country with
      | .error e => .error e
      | .ok urn => .ok ⟨urn, f.body, f.id, od⟩

end MistaGo

namespace Part000

/-- moForm of src/unnamed/part_000 (and, textually identical, of
    part_001): fields ID, Text, From, To, Date.  Every field carries
    the tag key json:validate instead of validate, so the validator
    library never sees a required constraint: Go struct-tag lookup for
    the key validate finds nothing in this tag string. -/
structure MoForm where
  id : String
  text : String
  fromAddr : String
  toAddr : String
  date : String
  deriving DecidableEq, Repr

/-- handlers.DecodeAndValidateForm on the part_000 moForm: because the
    validation tags are under the wrong key, no field is required and
    decoding always succeeds. -/
def validateMoForm (_f : MoForm) : Except Err Unit := .ok ()

/-- Date handling of part_000 (and part_001) receiveMessage: the layout
    2006-01-02T15:04:05Z is attempted first, then 2006-01-02 15:04:05
    followed by date.UTC() (the identity, since a parse with no zone is
    already UTC); if both fail the handler fails with the
    invalid-date-format error carrying the original string. -/
def parseDate (s : String) : Except Err Int :=
  match parseLayoutZ s with
  | some t => .ok t
  | none =>
    match parseLayoutSpace s with
    | some t => .ok t
    | none => .error (.invalidDateFormat s)

/-- receiveMessage of part_000 (and, textually identical, part_001),
    with the external handlers.StrictTelForCountry as a parameter. -/
def receiveMessage (tel : String → String → Except Err String) (country : String)
    (f : MoForm) : Except Err IncomingMsg :=
  match validateMoForm f with
  | .error e => .error e
  | .ok _ =>
    match parseDate f.date with
    | .error e => .error e
    | .ok date =>
      match tel f.fromAddr country with
      | .error e => .error e
      | .ok urn => .ok ⟨urn, f.text, f.id, some date⟩

end Part000

/- ----------------------------------------------------------------
   Outbound send.
   ---------------------------------------------------------------- -/

/-- The send endpoint (the sendURL variable of every revision). -/
def sendURL : String := "https://api.mista.io/sms"

/-- Inputs SendMsg reads from the courier message and its channel:
    msg.URN().Path(), msg.Text(), msg.Channel().Address(), and the
    channel configuration values for the keys ConfigAPIKey and
    ConfigSenderID (empty string when unset, the default passed to
    StringConfigForKey). -/
structure OutboundMsg where
  urnPath : String
  text : String
  channelAddress : String
  apiKeyConfig : String
  senderIDConfig : String
  deriving DecidableEq, Repr

/-- The HTTP request assembled by SendMsg: method, URL, headers in the
    order they are set, and the JSON body rendered as its field list in
    the declaration order json.Marshal uses. -/
structure ProviderRequest where
  httpMethod : String
  url : String
  headers : List (String × String)
  body : List (String × String)
  deriving DecidableEq, Repr

/-- Fields extracted by json.Unmarshal of the response body into the
    struct with json keys status and uid (absent fields decode to the
    empty string). -/
structure RespData where
  status : String
  uid : String
  deriving DecidableEq, Repr

/-- Outcome of the HTTP exchange performed with client.Do followed by
    ioutil.ReadAll, as observed by mista.go and part_001:
    a transport error from client.Do, a read failure of the body, or a
    response with its status code and the result of json.Unmarshal on
    the body (none when the body is not JSON of the expected shape). -/
inductive HTTPResult where
  | transportError (e : String)
  | readError (code : Nat) (e : String)
  | success (code : Nat) (body : Option RespData)
  deriving DecidableEq, Repr

/-- Modelled from the spec: utils.MakeHTTPRequest (used only by
    part_000) is not under src.  Per the SendAdapter transitions of the
    spec it returns a non-nil error on transport failure, unreadable
    body or non-2xx response, and always hands back the response body,
    on which part_000 runs jsonparser.GetString for the paths
    data.status and data.uid (none when the path is absent or the body
    is not JSON; the source discards the extraction error). -/
structure RRResult where
  failed : Bool
  dataStatus : Option String
  dataUid : Option String
  deriving DecidableEq, Repr

/-- One status record per send attempt, as built by
    Backend().NewMsgStatusForID (externalID none until SetExternalID). -/
structure MsgStatusRecord where
  status : MsgStatusValue
  externalID : Option String
  deriving DecidableEq, Repr

namespace MistaGo

/-- The apiKey value of src/mista.go SendMsg: the literal Bearer and a
    space prefixed to the configured credential. -/
def apiKey (cred : String) : String := "Bearer " ++ cred

/-- The request assembled by src/mista.go SendMsg: POST to sendURL,
    headers Accept, Content-Type and Authorization, JSON body with the
    fields recipient = msg.URN().Path(), sender_id =
    msg.Channel().Address(), message = msg.Text(), type = plain. -/
def buildRequest (m : OutboundMsg) : ProviderRequest :=
  { httpMethod := "POST"
    url := sendURL
    headers := [("Accept", "application/json"), ("Content-Type", "application/json"),
                ("Authorization", apiKey m.apiKeyConfig)]
    body := [("recipient", m.urnPath), ("sender_id", m.channelAddress),
             ("message", m.text), ("type", "plain")] }

/-- SendMsg of src/mista.go.  The network is the parameter respond,
    applied to the assembled request.  Control flow of the source:
    the empty-apiKey guard (line 121), transport errors, read errors
    and non-200 status codes returned to the host as errors (the
    resp == nil arm is unreachable when client.Do returns no error and
    is not modelled; json.Marshal and http.NewRequest cannot fail on
    these inputs), then a status record created as Errored, kept when
    json.Unmarshal fails, and otherwise set to Wired with the uid as
    external ID with no check of the response status field. -/
def sendMsg (m : OutboundMsg) (respond : ProviderRequest → HTTPResult) :
    Except Err MsgStatusRecord :=
  if apiKey m.apiKeyConfig = "" then .error .noAPIKey
  else
    match respond (buildRequest m) with
    | .transportError e => .error (.transportError e)
    | .readError _ e => .error (.readFailed e)
    | .success code body =>
      if code ≠ 200 then .error (.sendFailed code)
      else
        match body with
        | none => .ok ⟨.errored, none⟩
        | some d => .ok ⟨.wired, some d.uid⟩

end MistaGo

namespace Part000

/-- The apiKey value of part_000 SendMsg, written Bearer ++ space ++
    credential in the source. -/
def apiKey (cred : String) : String := "Bearer" ++ " " ++ cred

/-- Modelled from the spec: handlers.GetTextAndAttachments is not under
    src; the canonical outbound message of the spec carries only its
    text, so the value is the message text. -/
def getTextAndAttachments (m : OutboundMsg) : String := m.text

/-- The request assembled by part_000 SendMsg: POST to sendURL, headers
    Accept and Authorization (no Content-Type in this revision), JSON
    body with recipient = msg.URN().Path(), sender_id =
    msg.Channel().Address(), message = GetTextAndAttachments(msg),
    type = plain. -/
def buildRequest (m : OutboundMsg) : ProviderRequest :=
  { httpMethod := "POST"
    url := sendURL
    headers := [("Accept", "application/json"), ("Authorization", apiKey m.apiKeyConfig)]
    body := [("recipient", m.urnPath), ("sender_id", m.channelAddress),
             ("message", getTextAndAttachments m), ("type", "plain")] }

/-- SendMsg of part_000: the empty-apiKey guard, then
    utils.MakeHTTPRequest; a status record is created as Errored and
    logged before the error check, a failed request returning that
    record with a nil error; otherwise data.status different from
    Delivered keeps Errored, and Delivered yields Wired with data.uid
    as external ID. -/
def sendMsg (m : OutboundMsg) (respond : ProviderRequest → RRResult) :
    Except Err MsgStatusRecord :=
  if apiKey m.apiKeyConfig = "" then .error .noAPIKey
  else
    let rr := respond (buildRequest m)
    if rr.failed then .ok ⟨.errored, none⟩
    else
      let msgStatus := rr.dataStatus.getD ""
      if msgStatus ≠ "Delivered" then .ok ⟨.errored, none⟩
      else .ok ⟨.wired, some (rr.dataUid.getD "")⟩

end Part000

namespace Part001

/-- The apiKey value of part_001 SendMsg: Bearer and a space prefixed
    to the configured credential. -/
def apiKey (cred : String) : String := "Bearer " ++ cred

/-- The request assembled by part_001 SendMsg: POST to sendURL, headers
    Accept, Content-Type and Authorization, JSON body with recipient =
    msg.Channel().Address(), sender_id = the ConfigSenderID channel
    configuration value, message = msg.Text(), type = plain. -/
def buildRequest (m : OutboundMsg) : ProviderRequest :=
  { httpMethod := "POST"
    url := sendURL
    headers := [("Accept", "application/json"), ("Content-Type", "application/json"),
                ("Authorization", apiKey m.apiKeyConfig)]
    body := [("recipient", m.channelAddress), ("sender_id", m.senderIDConfig),
             ("message", m.text), ("type", "plain")] }

/-- SendMsg of part_001: the empty-apiKey guard, transport errors, read
    errors, non-200 status codes and json.Unmarshal failures all
    returned to the host as errors; a parsed body with status Delivered
    yields Wired with the uid as external ID, any other parsed body
    yields the Errored record. -/
def sendMsg (m : OutboundMsg) (respond : ProviderRequest → HTTPResult) :
    Except Err MsgStatusRecord :=
  if apiKey m.apiKeyConfig = "" then .error .noAPIKey
  else
    match respond (buildRequest m) with
    | .transportError e => .error (.transportError e)
    | .readError _ e => .error (.readFailed e)
    | .success code body =>
      if code ≠ 200 then .error (.sendFailed code)
      else
        match body with
        | none => .error .unmarshalFailed
        | some d =>
          if d.status = "Delivered" then .ok ⟨.wired, some d.uid⟩
          else .ok ⟨.errored, none⟩

end Part001

/- ----------------------------------------------------------------
   Helper lemmas.
   ---------------------------------------------------------------- -/

theorem lit_self (c : Char) (l : List Char) : lit c (c :: l) = some l := by
  simp [lit]

theorem skipFrac_z : skipFrac ['Z'] = ['Z'] := rfl

theorem skipFrac_nil : skipFrac [] = [] := rfl

theorem data_mk (l : List Char) : (String.mk l).data = l := rfl

theorem digitVal_digitChar (d : Nat) (h : d ≤ 9) : digitVal (digitChar d) = some d := by
  interval_cases d <;> rfl

theorem read2_pad2 (n : Nat) (h : n ≤ 99) (l : List Char) :
    read2 (pad2 n ++ l) = some (n, l) := by
  have h1 : n / 10 ≤ 9 := by omega
  have h2 : n % 10 ≤ 9 := by omega
  simp [pad2, read2, digitVal_digitChar _ h1, digitVal_digitChar _ h2]
  omega

theorem read4_pad4 (n : Nat) (h : n ≤ 9999) (l : List Char) :
    read4 (pad4 n ++ l) = some (n, l) := by
  have h1 : n / 1000 ≤ 9 := by omega
  have h2 : n / 100 % 10 ≤ 9 := by omega
  have h3 : n / 10 % 10 ≤ 9 := by omega
  have h4 : n % 10 ≤ 9 := by omega
  simp [pad4, read4, digitVal_digitChar _ h1, digitVal_digitChar _ h2,
        digitVal_digitChar _ h3, digitVal_digitChar _ h4]
  omega

theorem daysInMonth_le (y m : Nat) : daysInMonth y m ≤ 31 := by
  unfold daysInMonth
  split_ifs <;> omega

theorem validDT_bounds (dt : DateTime) (hv : validDT dt = true) :
    dt.month ≤ 99 ∧ dt.day ≤ 99 ∧ dt.hour ≤ 99 ∧ dt.minute ≤ 99 ∧ dt.second ≤ 99 := by
  have h31 := daysInMonth_le dt.year dt.month
  simp [validDT] at hv
  omega

theorem readDateTime_renderCore (sep : Char) (dt : DateTime) (suffix : List Char)
    (hy : dt.year ≤ 9999) (hmo : dt.month ≤ 99) (hd : dt.day ≤ 99)
    (hh : dt.hour ≤ 99) (hmi : dt.minute ≤ 99) (hs : dt.second ≤ 99) :
    readDateTime sep (renderCore sep dt ++ suffix) = some (dt, suffix) := by
  simp [renderCore, readDateTime, List.append_assoc, read4_pad4 _ hy,
        read2_pad2 _ hmo, read2_pad2 _ hd, read2_pad2 _ hh, read2_pad2 _ hmi,
        read2_pad2 _ hs, lit_self]

theorem readDateTime_t_on_space (dt : DateTime)
    (hy : dt.year ≤ 9999) (hmo : dt.month ≤ 99) (hd : dt.day ≤ 99) :
    readDateTime 'T' (renderCore ' ' dt) = none := by
  simp [renderCore, readDateTime, List.append_assoc, read4_pad4 _ hy,
        read2_pad2 _ hmo, read2_pad2 _ hd, lit_self, lit]

theorem parseLayoutZ_renderZ (dt : DateTime) (hy : dt.year ≤ 9999)
    (hv : validDT dt = true) :
    parseLayoutZ (renderZ dt) = some (dtInstant dt) := by
  obtain ⟨hmo, hd, hh, hmi, hs⟩ := validDT_bounds dt hv
  simp [parseLayoutZ, renderZ, data_mk,
        readDateTime_renderCore 'T' dt ['Z'] hy hmo hd hh hmi hs,
        skipFrac_z, lit_self, hv]

theorem parseLayoutSpace_renderSpace (dt : DateTime) (hy : dt.year ≤ 9999)
    (hv : validDT dt = true) :
    parseLayoutSpace (renderSpace dt) = some (dtInstant dt) := by
  obtain ⟨hmo, hd, hh, hmi, hs⟩ := validDT_bounds dt hv
  have hr := readDateTime_renderCore ' ' dt [] hy hmo hd hh hmi hs
  rw [List.append_nil] at hr
  simp [parseLayoutSpace, renderSpace, data_mk, hr, skipFrac_nil, hv]

theorem parseLayoutZ_renderSpace (dt : DateTime) (hy : dt.year ≤ 9999)
    (hv : validDT dt = true) :
    parseLayoutZ (renderSpace dt) = none := by
  obtain ⟨hmo, hd, _, _, _⟩ := validDT_bounds dt hv
  simp [parseLayoutZ, renderSpace, data_mk, readDateTime_t_on_space dt hy hmo hd]

theorem parseRFC3339_renderSpace (dt : DateTime) (hy : dt.year ≤ 9999)
    (hv : validDT dt = true) :
    parseRFC3339 (renderSpace dt) = none := by
  obtain ⟨hmo, hd, _, _, _⟩ := validDT_bounds dt hv
  simp [parseRFC3339, renderSpace, data_mk, readDateTime_t_on_space dt hy hmo hd]

theorem renderSpace_ne_empty (dt : DateTime) : renderSpace dt ≠ "" := by
  intro h
  have h2 : (renderSpace dt).data = ("" : String).data := congrArg String.data h
  simp [renderSpace, renderCore, pad4, data_mk] at h2

theorem bearer_ne_empty (c : String) : "Bearer " ++ c ≠ "" := by
  intro h
  have h2 : ("Bearer " ++ c).data = ("" : String).data := congrArg String.data h
  rw [String.data_append] at h2
  simp at h2

theorem bearer_sp_ne_empty (c : String) : "Bearer" ++ " " ++ c ≠ "" := by
  intro h
  have h2 : ("Bearer" ++ " " ++ c).data = ("" : String).data := congrArg String.data h
  rw [String.data_append, String.data_append] at h2
  simp at h2

/- ----------------------------------------------------------------
   Claim theorems.
   ---------------------------------------------------------------- -/

/-- Claim C1, counterexample: the status webhook handler does not send
    every string outside the six-entry table to the unknown-status
    error.  The empty status string is outside the table, yet it is
    rejected by the required-field validation with an error naming the
    field, not an unknown-status error naming the value. -/
theorem c1_counterexample :
    receiveStatus ⟨"abc", ""⟩ = .error (.validationFailed "status") ∧
    receiveStatus ⟨"abc", ""⟩ ≠ .error (.unknownStatus "") := by
  decide

/-- Claim C1, amended: for every status form whose id and status fields
    are non-empty, the handler maps the provider status by
    case-sensitive exact lookup exactly as the fixed table (Success to
    Delivered, Sent to Sent, Buffered to Sent, Rejected to Failed,
    Failed to Failed, Expired to Failed), and every other status string
    fails with the unknown-status error naming the offending value,
    never a default mapping; an empty status string is instead rejected
    by required-field validation. -/
theorem c1_amended : ∀ (f : StatusForm), f.id ≠ "" → f.status ≠ "" →
    (f.status = "Success" → receiveStatus f = .ok ⟨f.id, .delivered⟩) ∧
    (f.status = "Sent" → receiveStatus f = .ok ⟨f.id, .sent⟩) ∧
    (f.status = "Buffered" → receiveStatus f = .ok ⟨f.id, .sent⟩) ∧
    (f.status = "Rejected" → receiveStatus f = .ok ⟨f.id, .failed⟩) ∧
    (f.status = "Failed" → receiveStatus f = .ok ⟨f.id, .failed⟩) ∧
    (f.status = "Expired" → receiveStatus f = .ok ⟨f.id, .failed⟩) ∧
    (f.status ≠ "Success" → f.status ≠ "Sent" → f.status ≠ "Buffered" →
     f.status ≠ "Rejected" → f.status ≠ "Failed" → f.status ≠ "Expired" →
        receiveStatus f = .error (.unknownStatus f.status)) := by
  intro f h1 h2
  refine ⟨fun h => ?_, fun h => ?_, fun h => ?_, fun h => ?_, fun h => ?_, fun h => ?_,
          fun ha hb hc hd he hf => ?_⟩ <;>
    simp [receiveStatus, statusMapping, h1, h2, *]

/-- Claim C1, witness: a concrete run through the amended theorem. -/
theorem c1_witness :
    receiveStatus ⟨"id9", "Buffered"⟩ = .ok ⟨"id9", .sent⟩ :=
  (c1_amended ⟨"id9", "Buffered"⟩ (by decide) (by decide)).2.2.1 rfl

/-- Claim C2: evaluation of the code at the failing input.  With a
    credential configured and the provider answering 200 with the JSON
    body carrying status Failed and uid u1, the mista.go SendMsg
    returns Wired with external ID u1 (it never reads the status
    field), where the claim requires Errored; the part_001 revision
    returns Errored on the same input, as the claim states. -/
theorem c2_failing_eval :
    MistaGo.sendMsg ⟨"+15551234567", "hi", "MISTA", "key1", "SND"⟩
        (fun _ => .success 200 (some ⟨"Failed", "u1"⟩)) =
      .ok ⟨.wired, some "u1"⟩ ∧
    Part001.sendMsg ⟨"+15551234567", "hi", "MISTA", "key1", "SND"⟩
        (fun _ => .success 200 (some ⟨"Failed", "u1"⟩)) =
      .ok ⟨.errored, none⟩ := by
  decide

/-- Claim C3: evaluation of the code at the failing input.  On a
    channel with no API key configured (empty string), every SendMsg
    revision computes the checked key as Bearer plus a space plus the
    empty credential, which is non-empty, so the missing-credential
    guard never fires: the send proceeds, issues the request with
    Authorization header exactly Bearer followed by a space, and
    interprets the provider response normally. -/
theorem c3_failing_eval :
    MistaGo.sendMsg ⟨"+15551234567", "hi", "MISTA", "", ""⟩
        (fun _ => .success 200 (some ⟨"Delivered", "u2"⟩)) = .ok ⟨.wired, some "u2"⟩ ∧
    Part001.sendMsg ⟨"+15551234567", "hi", "MISTA", "", ""⟩
        (fun _ => .success 200 (some ⟨"Delivered", "u2"⟩)) = .ok ⟨.wired, some "u2"⟩ ∧
    Part000.sendMsg ⟨"+15551234567", "hi", "MISTA", "", ""⟩
        (fun _ => ⟨false, some "Delivered", some "u2"⟩) = .ok ⟨.wired, some "u2"⟩ ∧
    MistaGo.apiKey "" = "Bearer " ∧
    (MistaGo.buildRequest ⟨"+15551234567", "hi", "MISTA", "", ""⟩).headers =
      [("Accept", "application/json"), ("Content-Type", "application/json"),
       ("Authorization", "Bearer ")] := by
  decide

/-- Claim C4, counterexample: with a credential configured, a
    transport-level failure makes the part_001 SendMsg return an error
    to the host instead of a terminal status record, contradicting the
    claim that no send attempt propagates an error. -/
theorem c4_counterexample :
    Part001.sendMsg ⟨"+15551234567", "hi", "MISTA", "key1", "SND"⟩
        (fun _ => .transportError "connection refused") =
      .error (.transportError "connection refused") := by
  decide

/-- Claim C4, amended: only the part_000 revision never propagates an
    error: every send attempt yields a terminal status record, with
    request failures collapsing to Errored.  The mista.go and part_001
    revisions return transport failures, body read failures and
    non-200 responses as errors to the host, and part_001 also returns
    JSON unmarshal failures as errors. -/
theorem c4_amended :
    (∀ (m : OutboundMsg) (respond : ProviderRequest → RRResult),
        ∃ s, Part000.sendMsg m respond = .ok s) ∧
    (∀ (m : OutboundMsg) (respond : ProviderRequest → RRResult),
        (respond (Part000.buildRequest m)).failed = true →
        Part000.sendMsg m respond = .ok ⟨.errored, none⟩) ∧
    (∀ (m : OutboundMsg) (e : String),
        MistaGo.sendMsg m (fun _ => .transportError e) = .error (.transportError e) ∧
        Part001.sendMsg m (fun _ => .transportError e) = .error (.transportError e)) ∧
    (∀ (m : OutboundMsg) (code : Nat) (e : String),
        MistaGo.sendMsg m (fun _ => .readError code e) = .error (.readFailed e) ∧
        Part001.sendMsg m (fun _ => .readError code e) = .error (.readFailed e)) ∧
    (∀ (m : OutboundMsg) (code : Nat) (b : Option RespData), code ≠ 200 →
        MistaGo.sendMsg m (fun _ => .success code b) = .error (.sendFailed code) ∧
        Part001.sendMsg m (fun _ => .success code b) = .error (.sendFailed code)) ∧
    (∀ (m : OutboundMsg),
        Part001.sendMsg m (fun _ => .success 200 none) = .error .unmarshalFailed) := by
  refine ⟨fun m respond => ?_, fun m respond h => ?_, fun m e => ?_, fun m code e => ?_,
          fun m code b h => ?_, fun m => ?_⟩
  · simp only [Part000.sendMsg, Part000.apiKey]
    rw [if_neg (bearer_sp_ne_empty m.apiKeyConfig)]
    split
    · exact ⟨_, rfl⟩
    · split
      · exact ⟨_, rfl⟩
      · exact ⟨_, rfl⟩
  · simp only [Part000.sendMsg, Part000.apiKey]
    rw [if_neg (bearer_sp_ne_empty m.apiKeyConfig)]
    simp [h]
  · constructor <;>
      · simp only [MistaGo.sendMsg, MistaGo.apiKey, Part001.sendMsg, Part001.apiKey]
        rw [if_neg (bearer_ne_empty m.apiKeyConfig)]
  · constructor <;>
      · simp only [MistaGo.sendMsg, MistaGo.apiKey, Part001.sendMsg, Part001.apiKey]
        rw [if_neg (bearer_ne_empty m.apiKeyConfig)]
  · constructor <;>
      · simp only [MistaGo.sendMsg, MistaGo.apiKey, Part001.sendMsg, Part001.apiKey]
        rw [if_neg (bearer_ne_empty m.apiKeyConfig)]
        simp [h]
  · simp only [Part001.sendMsg, Part001.apiKey]
    rw [if_neg (bearer_ne_empty m.apiKeyConfig)]
    simp

/-- Claim C4, witness: concrete runs through the amended theorem. -/
theorem c4_witness :
    Part000.sendMsg ⟨"+15551234567", "hi", "MISTA", "key1", "SND"⟩
        (fun _ => ⟨true, none, none⟩) = .ok ⟨.errored, none⟩ ∧
    MistaGo.sendMsg ⟨"+15551234567", "hi", "MISTA", "key1", "SND"⟩
        (fun _ => .success 500 none) = .error (.sendFailed 500) := by
  constructor
  · exact c4_amended.2.1 ⟨"+15551234567", "hi", "MISTA", "key1", "SND"⟩ _ rfl
  · exact (c4_amended.2.2.2.2.1 ⟨"+15551234567", "hi", "MISTA", "key1", "SND"⟩
      500 none (by decide)).1

/-- Claim C5, counterexample: the mista.go inbound handler rejects the
    timestamp 2017-05-03 06:04:45, a string in the space-separated
    supported format on which the claim requires success: this revision
    attempts RFC3339 and then the Z-suffixed layout, never the
    space-separated layout. -/
theorem c5_counterexample :
    MistaGo.receiveMessage (fun f _ => .ok ("tel:" ++ f)) "UG"
        ⟨"m1", "hello", "0711223344", "256", "2017-05-03 06:04:45"⟩ =
      .error (.invalidDateFormat "2017-05-03 06:04:45") := by
  decide

/-- Claim C5, amended: the part_000 and part_001 handler attempts the
    strict Z-suffixed layout first, then the space-separated layout
    interpreted as already UTC; it succeeds on every well-formed string
    of either shape, and when both attempts fail (for example on
    03/05/2017) it fails with the malformed-timestamp error carrying
    the original string.  The mista.go handler instead attempts RFC3339
    and then the Z-suffixed layout, and therefore rejects every
    space-separated timestamp. -/
theorem c5_amended : ∀ (dt : DateTime), dt.year ≤ 9999 → validDT dt = true →
    Part000.parseDate (renderZ dt) = .ok (dtInstant dt) ∧
    Part000.parseDate (renderSpace dt) = .ok (dtInstant dt) ∧
    (∀ s, parseLayoutZ s = none → parseLayoutSpace s = none →
        Part000.parseDate s = .error (.invalidDateFormat s)) ∧
    Part000.parseDate "03/05/2017" = .error (.invalidDateFormat "03/05/2017") ∧
    MistaGo.parseDate (renderSpace dt) =
      .error (.invalidDateFormat (renderSpace dt)) := by
  intro dt hy hv
  refine ⟨?_, ?_, ?_, by decide, ?_⟩
  · simp [Part000.parseDate, parseLayoutZ_renderZ dt hy hv]
  · simp [Part000.parseDate, parseLayoutZ_renderSpace dt hy hv,
          parseLayoutSpace_renderSpace dt hy hv]
  · intro s h1 h2
    simp [Part000.parseDate, h1, h2]
  · simp [MistaGo.parseDate, renderSpace_ne_empty dt,
          parseRFC3339_renderSpace dt hy hv, parseLayoutZ_renderSpace dt hy hv]

/-- Claim C5, witness: a concrete run through the amended theorem. -/
theorem c5_witness :
    Part000.parseDate (renderZ ⟨2017, 5, 3, 6, 4, 45⟩) =
      .ok (dtInstant ⟨2017, 5, 3, 6, 4, 45⟩) :=
  (c5_amended ⟨2017, 5, 3, 6, 4, 45⟩ (by decide) (by decide)).1

/-- Claim C6: in both inbound handler revisions the origin number is
    passed through the country-scoped validator before any message is
    built: whatever the validator (a parameter, since
    handlers.StrictTelForCountry is external to the repository)
    decides, a rejection makes the handler fail with that error and no
    message, and an acceptance makes the produced message carry exactly
    the returned URN. -/
theorem c6_urn_validation :
    ∀ (tel : String → String → Except Err String) (country : String),
      (∀ (f : Part000.MoForm) (d : Int), Part000.parseDate f.date = .ok d →
        (∀ e, tel f.fromAddr country = .error e →
            Part000.receiveMessage tel country f = .error e) ∧
        (∀ u, tel f.fromAddr country = .ok u →
            Part000.receiveMessage tel country f = .ok ⟨u, f.text, f.id, some d⟩)) ∧
      (∀ (f : MistaGo.MoForm) (od : Option Int),
          MistaGo.validateMoForm f = .ok () → MistaGo.parseDate f.date = .ok od →
        (∀ e, tel f.fromAddr country = .error e →
            MistaGo.receiveMessage tel country f = .error e) ∧
        (∀ u, tel f.fromAddr country = .ok u →
            MistaGo.receiveMessage tel country f = .ok ⟨u, f.body, f.id, od⟩)) := by
  intro tel country
  constructor
  · intro f d hd
    constructor
    · intro e he
      simp [Part000.receiveMessage, Part000.validateMoForm, hd, he]
    · intro u hu
      simp [Part000.receiveMessage, Part000.validateMoForm, hd, hu]
  · intro f od hval hd
    constructor
    · intro e he
      simp [MistaGo.receiveMessage, hval, hd, he]
    · intro u hu
      simp [MistaGo.receiveMessage, hval, hd, hu]

/-- Claim C6, witness: concrete runs through the theorem, one with a
    rejecting validator and one with an accepting validator. -/
theorem c6_witness :
    Part000.receiveMessage (fun _ _ => .error (.urnError "invalid phone")) "UG"
        ⟨"m1", "hello", "banana", "256", "2017-05-03T06:04:45Z"⟩ =
      .error (.urnError "invalid phone") ∧
    Part000.receiveMessage (fun _ _ => .ok "tel:+256700000000") "UG"
        ⟨"m1", "hello", "0700000000", "256", "2017-05-03T06:04:45Z"⟩ =
      .ok ⟨"tel:+256700000000", "hello", "m1", some (dtInstant ⟨2017, 5, 3, 6, 4, 45⟩)⟩ := by
  constructor
  · exact (((c6_urn_validation _ "UG").1 _ (dtInstant ⟨2017, 5, 3, 6, 4, 45⟩)
      (by decide)).1) _ rfl
  · exact (((c6_urn_validation _ "UG").1 _ (dtInstant ⟨2017, 5, 3, 6, 4, 45⟩)
      (by decide)).2) _ rfl

/-- Claim C7, counterexample: the mista.go handler accepts an inbound
    form whose message identifier is empty (and whose date is empty)
    and produces a message with an empty external ID, where the claim
    requires rejection whenever any of the four fields is empty. -/
theorem c7_counterexample :
    MistaGo.receiveMessage (fun f _ => .ok ("tel:+256" ++ f)) "UG"
        ⟨"", "hello", "0711223344", "256", ""⟩ =
      .ok ⟨"tel:+2560711223344", "hello", "", none⟩ := by
  decide

/-- Claim C7, amended: the mista.go handler requires only non-empty
    text (form field body), origin and destination, rejecting with a
    validation error naming the first empty one of those fields, and
    accepts an empty message identifier; the part_000 and part_001
    handler enforces no required field at all, its validation tags
    being written under the wrong tag key. -/
theorem c7_amended :
    (∀ (f : MistaGo.MoForm),
      (f.body = "" → MistaGo.validateMoForm f = .error (.validationFailed "body")) ∧
      (f.body ≠ "" → f.fromAddr = "" →
          MistaGo.validateMoForm f = .error (.validationFailed "from")) ∧
      (f.body ≠ "" → f.fromAddr ≠ "" → f.toAddr = "" →
          MistaGo.validateMoForm f = .error (.validationFailed "to")) ∧
      (f.body ≠ "" → f.fromAddr ≠ "" → f.toAddr ≠ "" →
          MistaGo.validateMoForm f = .ok ()) ∧
      (∀ (tel : String → String → Except Err String) (country : String),
          f.body = "" →
          MistaGo.receiveMessage tel country f = .error (.validationFailed "body"))) ∧
    (∀ (g : Part000.MoForm), Part000.validateMoForm g = .ok ()) := by
  constructor
  · intro f
    refine ⟨fun h => ?_, fun h1 h2 => ?_, fun h1 h2 h3 => ?_, fun h1 h2 h3 => ?_,
            fun tel country h => ?_⟩
    · simp [MistaGo.validateMoForm, h]
    · simp [MistaGo.validateMoForm, h1, h2]
    · simp [MistaGo.validateMoForm, h1, h2, h3]
    · simp [MistaGo.validateMoForm, h1, h2, h3]
    · simp [MistaGo.receiveMessage, MistaGo.validateMoForm, h]
  · intro g
    rfl

/-- Claim C7, witness: a concrete run through the amended theorem. -/
theorem c7_witness :
    MistaGo.validateMoForm ⟨"m1", "", "0711223344", "256", ""⟩ =
      .error (.validationFailed "body") :=
  (c7_amended.1 ⟨"m1", "", "0711223344", "256", ""⟩).1 rfl

/-- Claim C8, counterexample: the part_001 SendMsg builds a JSON body
    whose recipient is the channel address and whose sender_id is the
    configured sender-ID value, not the destination URN path and the
    channel address the claim requires. -/
theorem c8_counterexample :
    (Part001.buildRequest ⟨"+15551234567", "hi", "MISTA", "key1", "SND77"⟩).body =
      [("recipient", "MISTA"), ("sender_id", "SND77"),
       ("message", "hi"), ("type", "plain")] ∧
    (Part001.buildRequest ⟨"+15551234567", "hi", "MISTA", "key1", "SND77"⟩).body ≠
      [("recipient", "+15551234567"), ("sender_id", "MISTA"),
       ("message", "hi"), ("type", "plain")] := by
  decide

/-- Claim C8, amended: the mista.go and part_000 revisions build the
    body exactly as the claim states (recipient the URN path, sender_id
    the channel address, message the text, type the literal plain; in
    part_000 the message value is GetTextAndAttachments of the message,
    which is its text for an attachment-free message); part_001 instead
    uses the channel address as recipient and the configured sender-ID
    value as sender_id.  In every revision the credential reaches only
    the Authorization header, as Bearer plus a space plus the
    credential, and the body is independent of the credential. -/
theorem c8_amended : ∀ (m : OutboundMsg) (c : String),
    (MistaGo.buildRequest m).body =
      [("recipient", m.urnPath), ("sender_id", m.channelAddress),
       ("message", m.text), ("type", "plain")] ∧
    (Part000.buildRequest m).body =
      [("recipient", m.urnPath), ("sender_id", m.channelAddress),
       ("message", m.text), ("type", "plain")] ∧
    (Part001.buildRequest m).body =
      [("recipient", m.channelAddress), ("sender_id", m.senderIDConfig),
       ("message", m.text), ("type", "plain")] ∧
    (MistaGo.buildRequest m).headers =
      [("Accept", "application/json"), ("Content-Type", "application/json"),
       ("Authorization", "Bearer " ++ m.apiKeyConfig)] ∧
    (Part000.buildRequest m).headers =
      [("Accept", "application/json"),
       ("Authorization", "Bearer" ++ " " ++ m.apiKeyConfig)] ∧
    (Part001.buildRequest m).headers =
      [("Accept", "application/json"), ("Content-Type", "application/json"),
       ("Authorization", "Bearer " ++ m.apiKeyConfig)] ∧
    (MistaGo.buildRequest { m with apiKeyConfig := c }).body =
      (MistaGo.buildRequest m).body ∧
    (Part000.buildRequest { m with apiKeyConfig := c }).body =
      (Part000.buildRequest m).body ∧
    (Part001.buildRequest { m with apiKeyConfig := c }).body =
      (Part001.buildRequest m).body := by
  intro m c
  exact ⟨rfl, rfl, rfl, rfl, rfl, rfl, rfl, rfl, rfl⟩

/-- Claim C9: the concrete inbound webhook of the spec (id m1, text
    hello, from 0711223344, to 256, date 2017-05-03T06:04:45Z) under
    channel country UG: for every country-scoped validator accepting
    the number (handlers.StrictTelForCountry is external; the spec
    fixes that this Ugandan number is valid), the part_000 handler
    succeeds with external ID m1 and the UTC instant of
    2017-05-03 06:04:45. -/
theorem c9_inbound_example :
    ∀ (tel : String → String → Except Err String) (u : String),
      tel "0711223344" "UG" = .ok u →
      Part000.receiveMessage tel "UG"
          ⟨"m1", "hello", "0711223344", "256", "2017-05-03T06:04:45Z"⟩ =
        .ok ⟨u, "hello", "m1", some (dtInstant ⟨2017, 5, 3, 6, 4, 45⟩)⟩ := by
  intro tel u h
  have hd : Part000.parseDate "2017-05-03T06:04:45Z" =
      .ok (dtInstant ⟨2017, 5, 3, 6, 4, 45⟩) := by decide
  simp [Part000.receiveMessage, Part000.validateMoForm, hd, h]

/-- Claim C9, witness: a concrete accepting validator. -/
theorem c9_witness :
    Part000.receiveMessage (fun _ _ => .ok "tel:+256711223344") "UG"
        ⟨"m1", "hello", "0711223344", "256", "2017-05-03T06:04:45Z"⟩ =
      .ok ⟨"tel:+256711223344", "hello", "m1",
           some (dtInstant ⟨2017, 5, 3, 6, 4, 45⟩)⟩ :=
  c9_inbound_example _ _ rfl

/-- Claim C10: in every SendMsg revision the checked API-key string is
    the literal Bearer and a space prefixed to the configured
    credential, hence non-empty for every configuration; the
    missing-credential branch is therefore unreachable (no run returns
    the no-API-key error), and with no credential configured the
    request is built with Authorization exactly Bearer followed by a
    space and the empty string. -/
theorem c10_bearer_gate :
    ∀ (c : String) (m : OutboundMsg) (net : ProviderRequest → HTTPResult)
      (net0 : ProviderRequest → RRResult),
      MistaGo.apiKey c = "Bearer " ++ c ∧
      MistaGo.apiKey c ≠ "" ∧ Part000.apiKey c ≠ "" ∧ Part001.apiKey c ≠ "" ∧
      MistaGo.sendMsg m net ≠ .error .noAPIKey ∧
      Part000.sendMsg m net0 ≠ .error .noAPIKey ∧
      Part001.sendMsg m net ≠ .error .noAPIKey ∧
      MistaGo.apiKey "" = "Bearer " ∧
      (MistaGo.buildRequest { m with apiKeyConfig := "" }).headers =
        [("Accept", "application/json"), ("Content-Type", "application/json"),
         ("Authorization", "Bearer ")] := by
  intro c m net net0
  refine ⟨rfl, bearer_ne_empty c, bearer_sp_ne_empty c, bearer_ne_empty c,
          ?_, ?_, ?_, rfl, rfl⟩
  · simp only [MistaGo.sendMsg, MistaGo.apiKey]
    rw [if_neg (bearer_ne_empty m.apiKeyConfig)]
    cases net (MistaGo.buildRequest m) with
    | transportError e => simp
    | readError code e => simp
    | success code body =>
      by_cases h : code = 200
      · subst h
        cases body <;> simp
      · simp [h]
  · simp only [Part000.sendMsg, Part000.apiKey]
    rw [if_neg (bearer_sp_ne_empty m.apiKeyConfig)]
    split
    · simp
    · split <;> simp
  · simp only [Part001.sendMsg, Part001.apiKey]
    rw [if_neg (bearer_ne_empty m.apiKeyConfig)]
    cases net (Part001.buildRequest m) with
    | transportError e => simp
    | readError code e => simp
    | success code body =>
      by_cases h : code = 200
      · subst h
        cases body with
        | none => simp
        | some d => by_cases hs : d.status = "Delivered" <;> simp [hs]
      · simp [h]

end Mista
